import Mathlib

/-!
Shallow embedding of the Atlas-AI persistence layer:
`src/lib/db/mongoose-schema.ts` (record types and uniqueness constraints)
and `src/lib/db/queries.ts` (the exported query functions).

Modelling conventions:
* The MongoDB collections are lists of records; each record structure mirrors
  the fields of the corresponding mongoose schema.  The driver-generated
  `_id` of a document is the `mongoId` field where the code uses it.
* Dates are `Int` milliseconds since the epoch (`Date.now()` style).
* Every exported query function in `queries.ts` has the shape
  `try { body } catch (error) { throw new ChatSDKError('bad_request:database', msg) }`.
  This is modelled by `catchWrap`: a `fail` flag models the event that some
  underlying driver operation rejects during the call, and any error raised
  inside the body (driver failure or an internally thrown `ChatSDKError`)
  is caught and replaced by the catch clause's error.
* Mutating functions return the post-state on success.  `createUser` and
  `createGuestUser` perform a single atomic insert, so they also return the
  (unchanged) post-state when the insert is rejected.
-/

structure ChatSDKError where
  kind : String
  message : String
deriving Repr, DecidableEq

/-- An error raised inside a `try` block: either an arbitrary driver /
validation error, or a `ChatSDKError` thrown by the code itself. -/
inductive DBErr where
  | driver
  | sdk (e : ChatSDKError)
deriving Repr, DecidableEq

/-- `userSchema`: id (required, unique), email (required, unique, maxlength 64),
password (optional, maxlength 64). -/
structure UserRec where
  id : String
  email : String
  password : Option String
deriving Repr, DecidableEq

/-- `chatSchema`: id (required, unique), createdAt, title, userId, visibility
(enum public|private).  `mongoId` is the driver-generated `_id`. -/
structure ChatRec where
  mongoId : String
  id : String
  createdAt : Int
  title : String
  userId : String
  visibility : String
deriving Repr, DecidableEq

/-- `messageSchema`: id (required, unique), chatId, role, parts, attachments,
createdAt.  `parts` and `attachments` are `Schema.Types.Mixed`, modelled as
opaque strings.  `mongoId` is the driver-generated `_id`. -/
structure MessageRec where
  mongoId : String
  id : String
  chatId : String
  role : String
  parts : String
  attachments : String
  createdAt : Int
deriving Repr, DecidableEq

/-- `voteSchema`: chatId, messageId, isUpvoted, with a unique compound index
on (chatId, messageId). -/
structure VoteRec where
  chatId : String
  messageId : String
  isUpvoted : Bool
deriving Repr, DecidableEq

/-- `documentSchema`: id (required, unique), createdAt, title, content
(optional), kind (enum), userId, plus a unique compound index on
(id, createdAt). -/
structure DocumentRec where
  id : String
  createdAt : Int
  title : String
  content : Option String
  kind : String
  userId : String
deriving Repr, DecidableEq

/-- `suggestionSchema`: id (required, unique), documentId, documentCreatedAt,
originalText, suggestedText, description (optional), isResolved, userId,
createdAt. -/
structure SuggestionRec where
  id : String
  documentId : String
  documentCreatedAt : Int
  originalText : String
  suggestedText : String
  description : Option String
  isResolved : Bool
  userId : String
  createdAt : Int
deriving Repr, DecidableEq

/-- `streamSchema`: id (required, unique), chatId, createdAt. -/
structure StreamRec where
  id : String
  chatId : String
  createdAt : Int
deriving Repr, DecidableEq

/-- The database state: one list per mongoose model. -/
structure DB where
  users : List UserRec
  chats : List ChatRec
  messages : List MessageRec
  votes : List VoteRec
  documents : List DocumentRec
  suggestions : List SuggestionRec
  streams : List StreamRec
deriving Repr, DecidableEq

/-- The uniform `try { body } catch { throw new ChatSDKError('bad_request:database', msg) }`
shape shared by every exported function of `queries.ts`.  `fail = true` models
an underlying driver rejection; any error of the body — driver or an
internally thrown `ChatSDKError` — is caught and replaced by the catch
clause's `bad_request:database` error. -/
def catchWrap (msg : String) (fail : Bool) (body : Except DBErr α) :
    Except ChatSDKError α :=
  if fail then .error ⟨"bad_request:database", msg⟩
  else
    match body with
    | .ok a => .ok a
    | .error _ => .error ⟨"bad_request:database", msg⟩

/-- Modelled from the spec: the password-hashing helper (`generateHashedPassword`
from `src/lib/db/utils`, not part of the provided sources); the spec only says a
password-hashing helper is consumed, so it is modelled as an opaque injective
tagging of the input. -/
def generateHashedPassword (password : String) : String :=
  "hashed:" ++ password

/-- A user document passed to `User.create`: fields the caller may omit are
options.  Mongoose rejects the insert if a `required` path is missing. -/
structure UserDoc where
  id : Option String
  email : Option String
  password : Option String
deriving Repr, DecidableEq

/-- `User.create`: validation (required paths `id` and `email` present,
`maxlength 64` on email and password) followed by the unique-index checks on
`id` and `email`.  On success the new record is appended. -/
def userCreate (doc : UserDoc) (users : List UserRec) :
    Except DBErr (UserRec × List UserRec) :=
  match doc.id, doc.email with
  | some i, some e =>
      if e.length > 64 then .error .driver
      else if doc.password.any (fun p => p.length > 64) then .error .driver
      else if users.any (fun u => u.id == i) then .error .driver
      else if users.any (fun u => u.email == e) then .error .driver
      else
        let u : UserRec := ⟨i, e, doc.password⟩
        .ok (u, users ++ [u])
  | _, _ => .error .driver

/-- The `try/catch` shape for a function whose body is a single atomic
insert: as in `catchWrap`, but the post-state is returned in both cases — a
rejected insert leaves the database unchanged. -/
def catchWrapKeep (msg : String) (fail : Bool) (db : DB)
    (body : Except DBErr (α × DB)) : Except ChatSDKError α × DB :=
  if fail then (.error ⟨"bad_request:database", msg⟩, db)
  else
    match body with
    | .ok (a, db') => (.ok a, db')
    | .error _ => (.error ⟨"bad_request:database", msg⟩, db)

/-- `getUser(email)`: `User.find({ email })`. -/
def getUser (fail : Bool) (db : DB) (email : String) :
    Except ChatSDKError (List UserRec) :=
  catchWrap "Failed to get user by email" fail
    (.ok (db.users.filter (fun u => u.email == email)))

/-- `createUser(email, password)`: hashes the password and calls
`User.create({ email, password })` — note that no `id` field is supplied. -/
def createUser (fail : Bool) (db : DB) (email password : String) :
    Except ChatSDKError UserRec × DB :=
  let hashedPassword := generateHashedPassword password
  catchWrapKeep "Failed to create user" fail db
    ((userCreate ⟨none, some email, some hashedPassword⟩ db.users).map
      (fun p => (p.1, { db with users := p.2 })))

/-- The value returned by `createGuestUser`: only the new user's `id` and
`email` fields. -/
structure GuestUserInfo where
  id : String
  email : String
deriving Repr, DecidableEq

/-- `createGuestUser()`: generates an id (`generateUUID`), an email
`guest-${Date.now()}` and a hashed random password, inserts the user and
returns `[{ id, email }]`.  The UUIDs and the clock are inputs of the model
(`uuid1` for the id, `uuid2` for the random password, `now` for `Date.now()`).
`newUser.id` reads the schema's own `id` path, i.e. the generated uuid. -/
def createGuestUser (fail : Bool) (db : DB) (uuid1 uuid2 : String) (now : Int) :
    Except ChatSDKError (List GuestUserInfo) × DB :=
  let email := "guest-" ++ toString now
  let password := generateHashedPassword uuid2
  catchWrapKeep "Failed to create guest user" fail db
    ((userCreate ⟨some uuid1, some email, some password⟩ db.users).map
      (fun p => ([⟨p.1.id, p.1.email⟩], { db with users := p.2 })))

/-- `Chat.create`: enum validation on `visibility` and the unique-index check
on `id` (the driver-generated `_id` is assumed fresh). -/
def chatCreate (c : ChatRec) (chats : List ChatRec) :
    Except DBErr (ChatRec × List ChatRec) :=
  if !(c.visibility == "public" || c.visibility == "private") then .error .driver
  else if chats.any (fun x => x.id == c.id) then .error .driver
  else .ok (c, chats ++ [c])

/-- `saveChat({ id, userId, title, visibility })`: inserts a chat with
`createdAt = new Date()` (the `now` input); `mongoId` models the
driver-generated `_id`. -/
def saveChat (fail : Bool) (db : DB) (id userId title visibility : String)
    (now : Int) (mongoId : String) : Except ChatSDKError (ChatRec × DB) :=
  catchWrap "Failed to save chat" fail
    ((chatCreate ⟨mongoId, id, now, title, userId, visibility⟩ db.chats).map
      (fun p => (p.1, { db with chats := p.2 })))

/-- `deleteChatById({ id })`, success path: `Vote.deleteMany({ chatId: id })`,
`Message.deleteMany({ chatId: id })`, `Stream.deleteMany({ chatId: id })`,
then `Chat.deleteOne({ id })` (removes at most the first match); returns
`{ id }` when a chat was deleted and `undefined` otherwise. -/
def deleteChatByIdCore (db : DB) (id : String) : Option String × DB :=
  let votes := db.votes.filter (fun v => !(v.chatId == id))
  let messages := db.messages.filter (fun m => !(m.chatId == id))
  let streams := db.streams.filter (fun s => !(s.chatId == id))
  let deletedCount : Nat := if db.chats.any (fun c => c.id == id) then 1 else 0
  let chats := db.chats.eraseP (fun c => c.id == id)
  (if deletedCount > 0 then some id else none,
   { db with votes, messages, streams, chats })

/-- `deleteChatById({ id })` with its catch clause. -/
def deleteChatById (fail : Bool) (db : DB) (id : String) :
    Except ChatSDKError (Option String × DB) :=
  catchWrap "Failed to delete chat by id" fail (.ok (deleteChatByIdCore db id))

/-- The cursor step of `getChatsByUserId`: resolves `startingAfter` /
`endingBefore` with `Chat.findOne({ id: cursor })` and throws an internal
`not_found:database` `ChatSDKError` when the cursor matches no chat;
otherwise restricts `base` to chats strictly after (resp. before) the
selected chat's `createdAt`. -/
def cursorFilter (db : DB) (base : List ChatRec)
    (startingAfter endingBefore : Option String) : Except DBErr (List ChatRec) :=
  match startingAfter with
  | some sa =>
      match db.chats.find? (fun c => c.id == sa) with
      | none =>
          .error (.sdk ⟨"not_found:database",
            "Chat with id " ++ sa ++ " not found"⟩)
      | some selectedChat =>
          .ok (base.filter (fun c => decide (selectedChat.createdAt < c.createdAt)))
  | none =>
      match endingBefore with
      | some eb =>
          match db.chats.find? (fun c => c.id == eb) with
          | none =>
              .error (.sdk ⟨"not_found:database",
                "Chat with id " ++ eb ++ " not found"⟩)
          | some selectedChat =>
              .ok (base.filter (fun c => decide (c.createdAt < selectedChat.createdAt)))
      | none => .ok base

/-- The page returned by `getChatsByUserId`. -/
structure ChatsPage where
  chats : List ChatRec
  hasMore : Bool
deriving Repr, DecidableEq

/-- The page construction of `getChatsByUserId` after the cursor step: sort
by `createdAt` descending, fetch `extendedLimit = limit + 1` rows, `hasMore`
when more than `limit` came back, and `slice(0, limit)` in that case. -/
def chatsPageOf (matching : List ChatRec) (limit : Nat) : ChatsPage :=
  let extendedLimit := limit + 1
  let filteredChats :=
    (List.insertionSort (fun a b => b.createdAt ≤ a.createdAt) matching).take
      extendedLimit
  let hasMore : Bool := decide (limit < filteredChats.length)
  ⟨if hasMore then filteredChats.take limit else filteredChats, hasMore⟩

/-- The body of the `try` block of `getChatsByUserId`: the base query
filtered by owner, the cursor step, then the sorted limited page. -/
def getChatsByUserIdBody (db : DB) (id : String) (limit : Nat)
    (startingAfter endingBefore : Option String) : Except DBErr ChatsPage := do
  let base := db.chats.filter (fun c => c.userId == id)
  let matching ← cursorFilter db base startingAfter endingBefore
  .ok (chatsPageOf matching limit)

/-- `getChatsByUserId` with its catch clause: note that the catch also
intercepts the internally thrown `not_found:database` error. -/
def getChatsByUserId (fail : Bool) (db : DB) (id : String) (limit : Nat)
    (startingAfter endingBefore : Option String) : Except ChatSDKError ChatsPage :=
  catchWrap "Failed to get chats by user id" fail
    (getChatsByUserIdBody db id limit startingAfter endingBefore)

/-- `getChatById({ id })`: `Chat.findOne({ id })`. -/
def getChatById (fail : Bool) (db : DB) (id : String) :
    Except ChatSDKError (Option ChatRec) :=
  catchWrap "Failed to get chat by id" fail
    (.ok (db.chats.find? (fun c => c.id == id)))

/-- `Message.insertMany` (ordered): inserts one document at a time and stops
at the first unique-index violation on `id`.  (The partially applied state
after a mid-list failure is not observable through the model's error value;
no claim depends on it.) -/
def insertMessagesOrdered (docs : List MessageRec) (acc : List MessageRec) :
    Except DBErr (List MessageRec) :=
  match docs with
  | [] => .ok acc
  | m :: rest =>
      if acc.any (fun x => x.id == m.id) then .error .driver
      else insertMessagesOrdered rest (acc ++ [m])

/-- `saveMessages({ messages })`. -/
def saveMessages (fail : Bool) (db : DB) (msgs : List MessageRec) :
    Except ChatSDKError DB :=
  catchWrap "Failed to save messages" fail
    ((insertMessagesOrdered msgs db.messages).map
      (fun messages => { db with messages }))

/-- `getMessagesByChatId({ id })`: messages of the chat sorted by `createdAt`
ascending. -/
def getMessagesByChatId (fail : Bool) (db : DB) (id : String) :
    Except ChatSDKError (List MessageRec) :=
  catchWrap "Failed to get messages by chat id" fail
    (.ok (List.insertionSort (fun a b => a.createdAt ≤ b.createdAt)
      (db.messages.filter (fun m => m.chatId == id))))

/-- `Vote.updateOne({ messageId, chatId }, { isUpvoted })`: updates at most
the first vote matching both keys. -/
def updateFirstVote (votes : List VoteRec) (messageId chatId : String)
    (up : Bool) : List VoteRec :=
  match votes with
  | [] => []
  | v :: rest =>
      if v.messageId == messageId && v.chatId == chatId then
        { v with isUpvoted := up } :: rest
      else v :: updateFirstVote rest messageId chatId up

/-- The body of `voteMessage({ chatId, messageId, type })`:
`Vote.findOne({ messageId })` — by `messageId` only — then either
`Vote.updateOne({ messageId, chatId }, ...)` or `Vote.create(...)`.
In the create branch no vote with this `messageId` exists, so the unique
(chatId, messageId) index cannot reject the insert. -/
def voteMessageCore (db : DB) (chatId messageId ty : String) : DB :=
  match db.votes.find? (fun v => v.messageId == messageId) with
  | some _ =>
      { db with votes := updateFirstVote db.votes messageId chatId (ty == "up") }
  | none => { db with votes := db.votes ++ [⟨chatId, messageId, ty == "up"⟩] }

/-- `voteMessage` with its catch clause. -/
def voteMessage (fail : Bool) (db : DB) (chatId messageId ty : String) :
    Except ChatSDKError DB :=
  catchWrap "Failed to vote message" fail
    (.ok (voteMessageCore db chatId messageId ty))

/-- `getVotesByChatId({ id })`: `Vote.find({ chatId: id })`. -/
def getVotesByChatId (fail : Bool) (db : DB) (id : String) :
    Except ChatSDKError (List VoteRec) :=
  catchWrap "Failed to get votes by chat id" fail
    (.ok (db.votes.filter (fun v => v.chatId == id)))

/-- `Document.create`: enum validation on `kind`, the unique index on `id`
and the unique compound index on (id, createdAt). -/
def documentCreate (d : DocumentRec) (docs : List DocumentRec) :
    Except DBErr (DocumentRec × List DocumentRec) :=
  if !(["text", "code", "image", "sheet"].contains d.kind) then .error .driver
  else if docs.any (fun x => x.id == d.id) then .error .driver
  else if docs.any (fun x => x.id == d.id && x.createdAt == d.createdAt) then
    .error .driver
  else .ok (d, docs ++ [d])

/-- `saveDocument({ id, title, kind, content, userId })` with
`createdAt = new Date()` (the `now` input). -/
def saveDocument (fail : Bool) (db : DB) (id title kind content userId : String)
    (now : Int) : Except ChatSDKError (DocumentRec × DB) :=
  catchWrap "Failed to save document" fail
    ((documentCreate ⟨id, now, title, some content, kind, userId⟩
        db.documents).map
      (fun p => (p.1, { db with documents := p.2 })))

/-- `getDocumentsById({ id })`: all versions with this `id`, sorted by
`createdAt` ascending. -/
def getDocumentsById (fail : Bool) (db : DB) (id : String) :
    Except ChatSDKError (List DocumentRec) :=
  catchWrap "Failed to get documents by id" fail
    (.ok (List.insertionSort (fun a b => a.createdAt ≤ b.createdAt)
      (db.documents.filter (fun d => d.id == id))))

/-- `getDocumentById({ id })`: `findOne({ id }).sort({ createdAt: -1 })`,
i.e. the latest version with this `id`. -/
def getDocumentById (fail : Bool) (db : DB) (id : String) :
    Except ChatSDKError (Option DocumentRec) :=
  catchWrap "Failed to get document by id" fail
    (.ok ((List.insertionSort (fun a b => b.createdAt ≤ a.createdAt)
      (db.documents.filter (fun d => d.id == id))).head?))

/-- `deleteDocumentsByIdAfterTimestamp({ id, timestamp })`, success path:
`Suggestion.deleteMany({ documentId: id, documentCreatedAt: { $gt: timestamp } })`
then `Document.deleteMany({ id, createdAt: { $gt: timestamp } })`; returns
`{ id }` when at least one document was deleted and `undefined` otherwise. -/
def deleteDocumentsByIdAfterTimestampCore (db : DB) (id : String)
    (timestamp : Int) : Option String × DB :=
  let suggestions := db.suggestions.filter
    (fun s => !(s.documentId == id && decide (timestamp < s.documentCreatedAt)))
  let deletedCount :=
    (db.documents.filter
      (fun d => d.id == id && decide (timestamp < d.createdAt))).length
  let documents := db.documents.filter
    (fun d => !(d.id == id && decide (timestamp < d.createdAt)))
  (if deletedCount > 0 then some id else none,
   { db with suggestions, documents })

/-- `deleteDocumentsByIdAfterTimestamp` with its catch clause. -/
def deleteDocumentsByIdAfterTimestamp (fail : Bool) (db : DB) (id : String)
    (timestamp : Int) : Except ChatSDKError (Option String × DB) :=
  catchWrap "Failed to delete documents by id after timestamp" fail
    (.ok (deleteDocumentsByIdAfterTimestampCore db id timestamp))

/-- `Suggestion.insertMany` (ordered), with the unique index on `id`. -/
def insertSuggestionsOrdered (docs : List SuggestionRec)
    (acc : List SuggestionRec) : Except DBErr (List SuggestionRec) :=
  match docs with
  | [] => .ok acc
  | s :: rest =>
      if acc.any (fun x => x.id == s.id) then .error .driver
      else insertSuggestionsOrdered rest (acc ++ [s])

/-- `saveSuggestions({ suggestions })`. -/
def saveSuggestions (fail : Bool) (db : DB) (suggs : List SuggestionRec) :
    Except ChatSDKError DB :=
  catchWrap "Failed to save suggestions" fail
    ((insertSuggestionsOrdered suggs db.suggestions).map
      (fun suggestions => { db with suggestions }))

/-- `getSuggestionsByDocumentId({ documentId })`. -/
def getSuggestionsByDocumentId (fail : Bool) (db : DB) (documentId : String) :
    Except ChatSDKError (List SuggestionRec) :=
  catchWrap "Failed to get suggestions by document id" fail
    (.ok (db.suggestions.filter (fun s => s.documentId == documentId)))

/-- `getMessageById({ id })`: `Message.findOne({ id })`. -/
def getMessageById (fail : Bool) (db : DB) (id : String) :
    Except ChatSDKError (Option MessageRec) :=
  catchWrap "Failed to get message by id" fail
    (.ok (db.messages.find? (fun m => m.id == id)))

/-- `deleteMessagesByChatIdAfterTimestamp({ chatId, timestamp })`, success
path: selects the `_id`s of the chat's messages with `createdAt >= timestamp`;
when nonempty, deletes the votes whose `messageId` is among those `_id`s
(note: vote `messageId`s store the message's custom `id`, the code compares
them with `_id`s) and then the selected messages. -/
def deleteMessagesByChatIdAfterTimestampCore (db : DB) (chatId : String)
    (timestamp : Int) : DB :=
  let messageIds :=
    (db.messages.filter
      (fun m => m.chatId == chatId && decide (timestamp ≤ m.createdAt))).map
      (fun m => m.mongoId)
  if messageIds.isEmpty then db
  else
    let votes := db.votes.filter
      (fun v => !(v.chatId == chatId && messageIds.contains v.messageId))
    let messages := db.messages.filter
      (fun m => !(m.chatId == chatId && messageIds.contains m.mongoId))
    { db with votes, messages }

/-- `deleteMessagesByChatIdAfterTimestamp` with its catch clause. -/
def deleteMessagesByChatIdAfterTimestamp (fail : Bool) (db : DB)
    (chatId : String) (timestamp : Int) : Except ChatSDKError DB :=
  catchWrap "Failed to delete messages by chat id after timestamp" fail
    (.ok (deleteMessagesByChatIdAfterTimestampCore db chatId timestamp))

/-- `Chat.updateOne({ id: chatId }, { visibility })`: updates at most the
first chat with this `id`. -/
def updateFirstChatVisibility (chats : List ChatRec) (chatId visibility : String) :
    List ChatRec :=
  match chats with
  | [] => []
  | c :: rest =>
      if c.id == chatId then { c with visibility } :: rest
      else c :: updateFirstChatVisibility rest chatId visibility

/-- `updateChatVisiblityById({ chatId, visibility })`. -/
def updateChatVisiblityById (fail : Bool) (db : DB) (chatId visibility : String) :
    Except ChatSDKError DB :=
  catchWrap "Failed to update chat visibility by id" fail
    (.ok { db with chats := updateFirstChatVisibility db.chats chatId visibility })

/-- The body of `getMessageCountByUserId({ id, differenceInHours })`:
counts messages with role `"user"` and `createdAt >= now - hours` whose
`chatId` is in the list produced by `Chat.find({ userId: id }).select('_id')`
— i.e. the chats' driver `_id`s, not their custom `id` field. -/
def getMessageCountByUserIdCore (db : DB) (id : String)
    (differenceInHours : Int) (now : Int) : Nat :=
  let twentyFourHoursAgo := now - differenceInHours * 60 * 60 * 1000
  let userChatMongoIds :=
    (db.chats.filter (fun c => c.userId == id)).map (fun c => c.mongoId)
  (db.messages.filter (fun m =>
    m.role == "user" && decide (twentyFourHoursAgo ≤ m.createdAt) &&
      userChatMongoIds.contains m.chatId)).length

/-- `getMessageCountByUserId` with its catch clause. -/
def getMessageCountByUserId (fail : Bool) (db : DB) (id : String)
    (differenceInHours : Int) (now : Int) : Except ChatSDKError Nat :=
  catchWrap "Failed to get message count by user id" fail
    (.ok (getMessageCountByUserIdCore db id differenceInHours now))

/-- `Stream.create`: unique-index check on `id`. -/
def streamCreate (s : StreamRec) (streams : List StreamRec) :
    Except DBErr (List StreamRec) :=
  if streams.any (fun x => x.id == s.id) then .error .driver
  else .ok (streams ++ [s])

/-- `createStreamId({ streamId, chatId })` with `createdAt = new Date()`
(the `now` input). -/
def createStreamId (fail : Bool) (db : DB) (streamId chatId : String)
    (now : Int) : Except ChatSDKError DB :=
  catchWrap "Failed to create stream id" fail
    ((streamCreate ⟨streamId, chatId, now⟩ db.streams).map
      (fun streams => { db with streams }))

/-- `getStreamIdsByChatId({ chatId })`: the chat's stream ids sorted by
`createdAt` ascending. -/
def getStreamIdsByChatId (fail : Bool) (db : DB) (chatId : String) :
    Except ChatSDKError (List String) :=
  catchWrap "Failed to get stream ids by chat id" fail
    (.ok ((List.insertionSort (fun a b => a.createdAt ≤ b.createdAt)
      (db.streams.filter (fun s => s.chatId == chatId))).map (fun s => s.id)))

/-- The count described by the spec sentence for `getMessageCountByUserId`
(stated from the spec's words, for comparison with the source translation):
messages with role `"user"`, created within the lookback window, whose chat
— identified by the `chatId` they store, i.e. the chat's `id` field — is
owned by the given user. -/
def specMessageCountByUserId (db : DB) (userId : String)
    (differenceInHours : Int) (now : Int) : Nat :=
  (db.messages.filter (fun m =>
    m.role == "user" &&
      decide (now - differenceInHours * 60 * 60 * 1000 ≤ m.createdAt) &&
      db.chats.any (fun c => c.userId == userId && c.id == m.chatId))).length

/-- The property claimed of every error surfaced by a query function: it is a
`ChatSDKError` whose kind is `bad_request:database` or `not_found:database`,
with a nonempty message. -/
def resultTagged : Except ChatSDKError α → Prop
  | .ok _ => True
  | .error e =>
      (e.kind = "bad_request:database" ∨ e.kind = "not_found:database") ∧
        e.message ≠ ""

/-- An empty database. -/
def emptyDB : DB := ⟨[], [], [], [], [], [], []⟩

/-- A database holding one chat `c1` of user `u` (and no chat `missing`). -/
def dbC1 : DB := ⟨[], [⟨"o1", "c1", 1, "t1", "u", "private"⟩], [], [], [], [], []⟩

/-- A database where user `u` owns chat `c1` (driver `_id` `oid1`) holding
one recent message of role `user`. -/
def dbC2 : DB :=
  ⟨[], [⟨"oid1", "c1", 0, "t1", "u", "private"⟩],
   [⟨"moid1", "m1", "c1", "user", "parts", "atts", 100⟩], [], [], [], []⟩

/-- A database where user `u` owns three chats. -/
def dbC3 : DB :=
  ⟨[], [⟨"o1", "c1", 1, "t1", "u", "private"⟩,
    ⟨"o2", "c2", 2, "t2", "u", "private"⟩,
    ⟨"o3", "c3", 3, "t3", "u", "private"⟩], [], [], [], [], []⟩

/-- A database with chat `c1` and its dependent message, vote and stream. -/
def dbC4 : DB :=
  ⟨[], [⟨"o1", "c1", 1, "t1", "u", "private"⟩],
   [⟨"mo1", "m1", "c1", "user", "p", "a", 1⟩], [⟨"c1", "m1", true⟩], [], [],
   [⟨"s1", "c1", 1⟩]⟩

/-- A database holding a vote on message `m` in a different chat `c2`. -/
def dbC5 : DB := ⟨[], [], [], [⟨"c2", "m", true⟩], [], [], []⟩

/-- The state after upvoting message `m1` in chat `c1` from the empty
database. -/
def dbV1 : DB := ⟨[], [], [], [⟨"c1", "m1", true⟩], [], [], []⟩

/-- The state after then downvoting message `m1` in chat `c1`. -/
def dbV2 : DB := ⟨[], [], [], [⟨"c1", "m1", false⟩], [], [], []⟩

/-- A database already holding a user with email `a@b.c`. -/
def dbDup : DB := ⟨[⟨"u1", "a@b.c", none⟩], [], [], [], [], [], []⟩

/-- Helper: `catchWrap` only surfaces the catch clause's tagged error. -/
theorem resultTagged_catchWrap (msg : String) (hm : msg ≠ "") (fail : Bool)
    (body : Except DBErr α) : resultTagged (catchWrap msg fail body) := by
  unfold catchWrap
  split
  · exact ⟨Or.inl rfl, hm⟩
  · cases body with
    | ok a => exact trivial
    | error e => exact ⟨Or.inl rfl, hm⟩

/-- Helper: `catchWrapKeep` only surfaces the catch clause's tagged error. -/
theorem resultTagged_catchWrapKeep (msg : String) (hm : msg ≠ "")
    (fail : Bool) (db : DB) (body : Except DBErr (α × DB)) :
    resultTagged (catchWrapKeep msg fail db body).1 := by
  unfold catchWrapKeep
  split
  · exact ⟨Or.inl rfl, hm⟩
  · cases body with
    | ok a => exact trivial
    | error e => exact ⟨Or.inl rfl, hm⟩

/-- Helper: a successful `User.create` echoes the document's fields and
appends the new record. -/
theorem userCreate_ok (doc : UserDoc) (users : List UserRec) (u : UserRec)
    (users' : List UserRec) (h : userCreate doc users = .ok (u, users')) :
    doc.id = some u.id ∧ doc.email = some u.email ∧ doc.password = u.password ∧
      users' = users ++ [u] := by
  obtain ⟨i, e, pw⟩ := doc
  cases i with
  | none => simp [userCreate] at h
  | some i =>
    cases e with
    | none => simp [userCreate] at h
    | some e =>
      unfold userCreate at h
      simp only at h
      split at h
      · simp at h
      · split at h
        · simp at h
        · split at h
          · simp at h
          · split at h
            · simp at h
            · simp only [Except.ok.injEq, Prod.mk.injEq] at h
              obtain ⟨h1, h2⟩ := h
              subst h1
              exact ⟨rfl, rfl, rfl, h2.symm⟩

/-- Claim C9: `createUser` never supplies the `id` field that the user schema
declares required, so the underlying create is always rejected: for every
input and state it surfaces the `bad_request:database` error and leaves the
user collection unchanged. -/
theorem createUser_always_fails (fail : Bool) (db : DB)
    (email password : String) :
    createUser fail db email password =
      (.error ⟨"bad_request:database", "Failed to create user"⟩, db) := by
  cases fail <;> rfl

/-- Claim C8: when a user with the given email already exists, `createUser`
fails with the `bad_request:database` error and adds no second user record
with that email (the state is unchanged). -/
theorem createUser_duplicate_email_fails (fail : Bool) (db : DB)
    (email password : String)
    (h : db.users.any (fun u => u.email == email) = true) :
    (createUser fail db email password).1 =
      .error ⟨"bad_request:database", "Failed to create user"⟩ ∧
    (createUser fail db email password).2 = db := by
  cases fail <;> exact ⟨rfl, rfl⟩

/-- Witness for C8 at a concrete state holding a user with the email. -/
theorem createUser_duplicate_email_fails_witness :
    dbDup.users.any (fun u => u.email == "a@b.c") = true ∧
    ((createUser false dbDup "a@b.c" "pw").1 =
      .error ⟨"bad_request:database", "Failed to create user"⟩ ∧
     (createUser false dbDup "a@b.c" "pw").2 = dbDup) :=
  ⟨by decide, createUser_duplicate_email_fails false dbDup "a@b.c" "pw"
    (by decide)⟩

/-- Claim C10: whenever `createGuestUser` succeeds, its result is the
one-element array holding exactly the new user's id and email, while the
stored record additionally carries the generated password hash. -/
theorem createGuestUser_returns_only_id_email (fail : Bool) (db : DB)
    (uuid1 uuid2 : String) (now : Int) (res : List GuestUserInfo)
    (h : (createGuestUser fail db uuid1 uuid2 now).1 = .ok res) :
    res = [⟨uuid1, "guest-" ++ toString now⟩] ∧
    (createGuestUser fail db uuid1 uuid2 now).2.users =
      db.users ++ [⟨uuid1, "guest-" ++ toString now,
        some (generateHashedPassword uuid2)⟩] := by
  cases fail with
  | true => simp [createGuestUser, catchWrapKeep] at h
  | false =>
    simp only [createGuestUser, catchWrapKeep, Bool.false_eq_true, if_false]
      at h ⊢
    cases hu : userCreate ⟨some uuid1, some ("guest-" ++ toString now),
        some (generateHashedPassword uuid2)⟩ db.users with
    | error e => rw [hu] at h; simp [Except.map] at h
    | ok p =>
      obtain ⟨u, users'⟩ := p
      obtain ⟨hid, hemail, hpw, happ⟩ := userCreate_ok _ _ _ _ hu
      rw [hu] at h
      dsimp only [Except.map] at h ⊢
      cases u with
      | mk uid uemail upw =>
        simp only [Option.some.injEq] at hid hemail
        subst hid
        subst hemail
        subst hpw
        subst happ
        simp only [Except.ok.injEq] at h
        exact ⟨h.symm, rfl⟩

/-- Witness for C10: a concrete successful guest-user creation. -/
theorem createGuestUser_returns_only_id_email_witness :
    (createGuestUser false emptyDB "uuid-1" "uuid-2" 1700).1 =
      .ok [⟨"uuid-1", "guest-" ++ toString (1700 : Int)⟩] ∧
    ([⟨"uuid-1", "guest-" ++ toString (1700 : Int)⟩] =
        ([⟨"uuid-1", "guest-" ++ toString (1700 : Int)⟩] : List GuestUserInfo) ∧
      (createGuestUser false emptyDB "uuid-1" "uuid-2" 1700).2.users =
        emptyDB.users ++ [⟨"uuid-1", "guest-" ++ toString (1700 : Int),
          some (generateHashedPassword "uuid-2")⟩]) :=
  ⟨by rfl, createGuestUser_returns_only_id_email false emptyDB "uuid-1"
    "uuid-2" 1700 _ (by rfl)⟩

/-- Claim C1 (code bug): on a cursor id matching no chat, the body of
`getChatsByUserId` does throw the `not_found:database` error — so the main
listing never proceeds — but the function's own catch-all intercepts it and
the error that escapes has kind `bad_request:database`, not
`not_found:database`. -/
theorem getChatsByUserId_cursor_not_found_rewrapped :
    getChatsByUserIdBody dbC1 "u" 5 (some "missing") none =
      .error (.sdk ⟨"not_found:database", "Chat with id missing not found"⟩) ∧
    getChatsByUserId false dbC1 "u" 5 (some "missing") none =
      .error ⟨"bad_request:database", "Failed to get chats by user id"⟩ := by
  constructor <;> rfl

/-- Claim C2 (code bug): `getMessageCountByUserId` compares the messages'
`chatId` — which stores the chat's custom `id` — against the chats' driver
`_id`s, so on a state where user `u` owns chat `c1` (driver id `oid1`)
holding one recent `user`-role message it returns 0, while the count the
spec describes is 1. -/
theorem getMessageCountByUserId_misses_user_messages :
    getMessageCountByUserId false dbC2 "u" 1 100 = .ok 0 ∧
    specMessageCountByUserId dbC2 "u" 1 100 = 1 := by
  constructor <;> rfl

/-- Helper: records kept by a `deleteMany`-style filter never match the
deletion predicate again. -/
theorem filter_not_filter (p : α → Bool) (l : List α) :
    (l.filter (fun a => !p a)).filter p = [] := by
  induction l with
  | nil => rfl
  | cons a l ih => by_cases h : p a <;> simp [List.filter_cons, h, ih]

/-- Claim C6: after the success path of `deleteDocumentsByIdAfterTimestamp`,
no document with the given id created strictly after the timestamp remains,
and no suggestion pointing at such a document version remains. -/
theorem deleteDocumentsByIdAfterTimestamp_cascades (db : DB) (id : String)
    (timestamp : Int) :
    ((deleteDocumentsByIdAfterTimestampCore db id timestamp).2.documents.filter
      (fun d => d.id == id && decide (timestamp < d.createdAt))) = [] ∧
    ((deleteDocumentsByIdAfterTimestampCore db id
        timestamp).2.suggestions.filter
      (fun s => s.documentId == id &&
        decide (timestamp < s.documentCreatedAt))) = [] := by
  exact ⟨filter_not_filter _ _, filter_not_filter _ _⟩

/-- Claim C7: every exported query function, on any input, any state and any
driver outcome, either succeeds or surfaces a `ChatSDKError` whose kind is
`bad_request:database` or `not_found:database` with a nonempty message; no
underlying store error escapes a function boundary unwrapped. -/
theorem allQueryFunctions_wrapErrors :
    (∀ fail db email, resultTagged (getUser fail db email)) ∧
    (∀ fail db email password,
      resultTagged (createUser fail db email password).1) ∧
    (∀ fail db u1 u2 now,
      resultTagged (createGuestUser fail db u1 u2 now).1) ∧
    (∀ fail db id userId title vis now oid,
      resultTagged (saveChat fail db id userId title vis now oid)) ∧
    (∀ fail db id, resultTagged (deleteChatById fail db id)) ∧
    (∀ fail db id limit sa eb,
      resultTagged (getChatsByUserId fail db id limit sa eb)) ∧
    (∀ fail db id, resultTagged (getChatById fail db id)) ∧
    (∀ fail db msgs, resultTagged (saveMessages fail db msgs)) ∧
    (∀ fail db id, resultTagged (getMessagesByChatId fail db id)) ∧
    (∀ fail db c mi ty, resultTagged (voteMessage fail db c mi ty)) ∧
    (∀ fail db id, resultTagged (getVotesByChatId fail db id)) ∧
    (∀ fail db id t k ct uid now,
      resultTagged (saveDocument fail db id t k ct uid now)) ∧
    (∀ fail db id, resultTagged (getDocumentsById fail db id)) ∧
    (∀ fail db id, resultTagged (getDocumentById fail db id)) ∧
    (∀ fail db id ts,
      resultTagged (deleteDocumentsByIdAfterTimestamp fail db id ts)) ∧
    (∀ fail db sg, resultTagged (saveSuggestions fail db sg)) ∧
    (∀ fail db did, resultTagged (getSuggestionsByDocumentId fail db did)) ∧
    (∀ fail db id, resultTagged (getMessageById fail db id)) ∧
    (∀ fail db cid ts,
      resultTagged (deleteMessagesByChatIdAfterTimestamp fail db cid ts)) ∧
    (∀ fail db cid vis,
      resultTagged (updateChatVisiblityById fail db cid vis)) ∧
    (∀ fail db id hrs now,
      resultTagged (getMessageCountByUserId fail db id hrs now)) ∧
    (∀ fail db sid cid now,
      resultTagged (createStreamId fail db sid cid now)) ∧
    (∀ fail db cid, resultTagged (getStreamIdsByChatId fail db cid)) := by
  refine ⟨?_, ?_, ?_, ?_, ?_, ?_, ?_, ?_, ?_, ?_, ?_, ?_, ?_, ?_, ?_, ?_,
    ?_, ?_, ?_, ?_, ?_, ?_, ?_⟩ <;> intros <;>
    first
      | exact resultTagged_catchWrap _ (by decide) _ _
      | exact resultTagged_catchWrapKeep _ (by decide) _ _ _

/-- Helper: when at most one element satisfies `p`, nothing satisfying `p`
survives a `deleteOne`-style `eraseP`. -/
theorem eraseP_no_match (p : α → Bool) (l : List α) (h : l.countP p ≤ 1) :
    (l.eraseP p).filter p = [] := by
  induction l with
  | nil => rfl
  | cons a l ih =>
    by_cases ha : p a
    · rw [List.eraseP_cons_of_pos ha]
      rw [List.countP_cons_of_pos _ _ ha] at h
      have h0 : l.countP p = 0 := by omega
      exact List.filter_eq_nil_iff.mpr (List.countP_eq_zero.mp h0)
    · rw [List.eraseP_cons_of_neg ha]
      rw [List.countP_cons_of_neg _ _ ha] at h
      simp only [List.filter_cons, ha, if_false]
      exact ih h

/-- Claim C4: after `deleteChatById({id})` completes successfully — on a
state where chat ids are unique, as the schema's unique index guarantees —
no vote, message or stream with that `chatId` remains, and no chat with
that `id` remains. -/
theorem deleteChatById_cascade (db : DB) (id : String) (res : Option String)
    (db' : DB) (hq : db.chats.countP (fun c => c.id == id) ≤ 1)
    (h : deleteChatById false db id = .ok (res, db')) :
    db'.votes.filter (fun v => v.chatId == id) = [] ∧
    db'.messages.filter (fun m => m.chatId == id) = [] ∧
    db'.streams.filter (fun s => s.chatId == id) = [] ∧
    db'.chats.filter (fun c => c.id == id) = [] := by
  have hdb : db' = (deleteChatByIdCore db id).2 := by
    simp only [deleteChatById, catchWrap, Bool.false_eq_true, if_false,
      Except.ok.injEq] at h
    exact congrArg Prod.snd h.symm
  subst hdb
  refine ⟨filter_not_filter _ _, filter_not_filter _ _,
    filter_not_filter _ _, eraseP_no_match _ _ hq⟩

/-- Witness for C4: deleting chat `c1` on a concrete state with a dependent
message, vote and stream. -/
theorem deleteChatById_cascade_witness :
    dbC4.chats.countP (fun c => c.id == "c1") ≤ 1 ∧
    deleteChatById false dbC4 "c1" = .ok (some "c1", emptyDB) ∧
    (emptyDB.votes.filter (fun v => v.chatId == "c1") = [] ∧
      emptyDB.messages.filter (fun m => m.chatId == "c1") = [] ∧
      emptyDB.streams.filter (fun s => s.chatId == "c1") = [] ∧
      emptyDB.chats.filter (fun c => c.id == "c1") = []) :=
  ⟨by decide, by rfl,
    deleteChatById_cascade dbC4 "c1" (some "c1") emptyDB (by decide) (by rfl)⟩

/-- Helper: `updateFirstVote` only flips the `isUpvoted` flag of its first
match, so the number of votes for the (chatId, messageId) pair is
preserved. -/
theorem updateFirstVote_countP_pair (l : List VoteRec) (m c : String)
    (up : Bool) :
    (updateFirstVote l m c up).countP
        (fun v => v.chatId == c && v.messageId == m) =
      l.countP (fun v => v.chatId == c && v.messageId == m) := by
  induction l with
  | nil => rfl
  | cons v rest ih =>
    obtain ⟨vc, vm, vu⟩ := v
    by_cases hcond : (vm == m && vc == c) = true
    · simp only [updateFirstVote, hcond, if_true, List.countP_cons]
    · rw [Bool.not_eq_true] at hcond
      simp only [updateFirstVote, hcond, Bool.false_eq_true, if_false,
        List.countP_cons, ih]

/-- Helper: when exactly one vote matches the (chatId, messageId) pair,
`updateFirstVote` leaves exactly that vote, with the new flag. -/
theorem updateFirstVote_filter_pair (l : List VoteRec) (m c : String)
    (up : Bool)
    (h : l.countP (fun v => v.chatId == c && v.messageId == m) = 1) :
    (updateFirstVote l m c up).filter
        (fun v => v.chatId == c && v.messageId == m) = [⟨c, m, up⟩] := by
  induction l with
  | nil => simp at h
  | cons v rest ih =>
    obtain ⟨vc, vm, vu⟩ := v
    by_cases hp : ((vc == c) && (vm == m)) = true
    · rw [Bool.and_eq_true] at hp
      obtain ⟨hcb, hmb⟩ := hp
      have hcond : (vm == m && vc == c) = true := by
        rw [Bool.and_eq_true]; exact ⟨hmb, hcb⟩
      have hpair : ((vc == c) && (vm == m)) = true := by
        rw [Bool.and_eq_true]; exact ⟨hcb, hmb⟩
      have h0 : rest.countP (fun v => v.chatId == c && v.messageId == m)
          = 0 := by
        rw [List.countP_cons_of_pos _ _ (by simpa using hpair)] at h
        omega
      simp only [updateFirstVote, hcond, if_true, List.filter_cons]
      rw [beq_iff_eq] at hcb hmb
      subst hcb
      subst hmb
      simp only [beq_self_eq_true, Bool.and_self, if_true]
      rw [List.filter_eq_nil_iff.mpr (List.countP_eq_zero.mp h0)]
    · rw [Bool.not_eq_true] at hp
      have hcond : (vm == m && vc == c) = false := by
        rw [Bool.and_comm]; exact hp
      have hcount : rest.countP
          (fun v => v.chatId == c && v.messageId == m) = 1 := by
        rw [List.countP_cons_of_neg _ _ (by simp [hp])] at h
        exact h
      simp only [updateFirstVote, hcond, Bool.false_eq_true, if_false,
        List.filter_cons, hp]
      exact ih hcount

/-- Helper: after one `voteMessage` on a state whose votes for this
`messageId` all live in this chat (and are unique for the pair, as the
unique index guarantees), exactly one vote for the pair exists. -/
theorem voteMessageCore_pair_count_one (db : DB) (c m t : String)
    (hcross : ∀ v ∈ db.votes, v.messageId = m → v.chatId = c)
    (huniq : db.votes.countP (fun v => v.chatId == c && v.messageId == m) ≤ 1) :
    (voteMessageCore db c m t).votes.countP
        (fun v => v.chatId == c && v.messageId == m) = 1 := by
  cases hf : db.votes.find? (fun v => v.messageId == m) with
  | none =>
    have hnone := List.find?_eq_none.mp hf
    have h0 : db.votes.countP
        (fun v => v.chatId == c && v.messageId == m) = 0 := by
      rw [List.countP_eq_zero]
      intro v hv hpv
      exact hnone v hv (Bool.and_eq_true .. ▸ hpv).2
    simp only [voteMessageCore, hf, List.countP_append, h0]
    simp
  | some v0 =>
    have hv0m : v0.messageId = m := by
      have := List.find?_some hf
      rwa [beq_iff_eq] at this
    have hv0c : v0.chatId = c := hcross v0 (List.mem_of_find?_eq_some hf) hv0m
    have hpos : 0 < db.votes.countP
        (fun v => v.chatId == c && v.messageId == m) :=
      List.countP_pos_iff.mpr ⟨v0, List.mem_of_find?_eq_some hf,
        by rw [Bool.and_eq_true, beq_iff_eq, beq_iff_eq]; exact ⟨hv0c, hv0m⟩⟩
    simp only [voteMessageCore, hf, updateFirstVote_countP_pair]
    exact Nat.le_antisymm huniq hpos

/-- Helper: a `voteMessage` on a state with exactly one vote for the pair
updates that vote in place. -/
theorem voteMessageCore_filter_pair (db : DB) (c m t : String)
    (hone : db.votes.countP (fun v => v.chatId == c && v.messageId == m) = 1) :
    (voteMessageCore db c m t).votes.filter
        (fun v => v.chatId == c && v.messageId == m) = [⟨c, m, t == "up"⟩] := by
  cases hf : db.votes.find? (fun v => v.messageId == m) with
  | none =>
    exfalso
    obtain ⟨v, hv, hpv⟩ := List.countP_pos_iff.mp
      (by rw [hone]; exact Nat.one_pos)
    exact List.find?_eq_none.mp hf v hv (Bool.and_eq_true .. ▸ hpv).2
  | some v0 =>
    simp only [voteMessageCore, hf]
    exact updateFirstVote_filter_pair _ _ _ _ hone

/-- Counterexample to claim C5 as stated: on a state holding a vote for the
same message `m` in a different chat `c2`, `voteMessage` for (`c1`, `m`)
finds the other chat's vote (the lookup is by `messageId` only), takes the
update branch, and the update — filtered by both keys — matches nothing.
Both calls leave the state unchanged, so after voting twice zero votes for
the pair (`c1`, `m`) exist, not one. -/
theorem voteMessage_cross_chat_counterexample :
    voteMessage false dbC5 "c1" "m" "up" = .ok dbC5 ∧
    voteMessage false dbC5 "c1" "m" "down" = .ok dbC5 ∧
    dbC5.votes.filter (fun v => v.chatId == "c1" && v.messageId == "m")
      = [] := by
  refine ⟨rfl, rfl, rfl⟩

/-- Claim C5 as amended: provided every existing vote for the message lives
in the same chat (in particular there is no vote for the message in another
chat) and at most one vote for the pair exists (as the unique index
guarantees), calling `voteMessage` twice for the same (chatId, messageId)
pair leaves exactly one vote record for that pair, with `isUpvoted`
reflecting the second call's type. -/
theorem voteMessage_twice_updates (db : DB) (c m t1 t2 : String)
    (db1 db2 : DB)
    (hcross : ∀ v ∈ db.votes, v.messageId = m → v.chatId = c)
    (huniq : db.votes.countP (fun v => v.chatId == c && v.messageId == m) ≤ 1)
    (h1 : voteMessage false db c m t1 = .ok db1)
    (h2 : voteMessage false db1 c m t2 = .ok db2) :
    db2.votes.filter (fun v => v.chatId == c && v.messageId == m) =
      [⟨c, m, t2 == "up"⟩] := by
  have e1 : voteMessageCore db c m t1 = db1 := by
    simp only [voteMessage, catchWrap, Bool.false_eq_true, if_false,
      Except.ok.injEq] at h1
    exact h1
  have e2 : voteMessageCore db1 c m t2 = db2 := by
    simp only [voteMessage, catchWrap, Bool.false_eq_true, if_false,
      Except.ok.injEq] at h2
    exact h2
  have hone : db1.votes.countP
      (fun v => v.chatId == c && v.messageId == m) = 1 :=
    e1 ▸ voteMessageCore_pair_count_one db c m t1 hcross huniq
  exact e2 ▸ voteMessageCore_filter_pair db1 c m t2 hone

/-- Witness for the amended C5: upvote then downvote message `m1` in chat
`c1` starting from the empty database. -/
theorem voteMessage_twice_updates_witness :
    (∀ v ∈ emptyDB.votes, v.messageId = "m1" → v.chatId = "c1") ∧
    emptyDB.votes.countP
      (fun v => v.chatId == "c1" && v.messageId == "m1") ≤ 1 ∧
    voteMessage false emptyDB "c1" "m1" "up" = .ok dbV1 ∧
    voteMessage false dbV1 "c1" "m1" "down" = .ok dbV2 ∧
    dbV2.votes.filter (fun v => v.chatId == "c1" && v.messageId == "m1") =
      [⟨"c1", "m1", "down" == "up"⟩] :=
  ⟨by intro v hv hm; simp [emptyDB] at hv, by decide, by rfl, by rfl,
    voteMessage_twice_updates emptyDB "c1" "m1" "up" "down" dbV1 dbV2
      (by intro v hv hm; simp [emptyDB] at hv) (by decide) (by rfl) (by rfl)⟩

/-- Helper: the page built by the limit-plus-one trick holds at most `limit`
chats, and `hasMore` holds exactly when more matching chats exist than were
returned. -/
theorem chatsPageOf_spec (matching : List ChatRec) (limit : Nat) :
    (chatsPageOf matching limit).chats.length ≤ limit ∧
    ((chatsPageOf matching limit).hasMore = true ↔
      (chatsPageOf matching limit).chats.length < matching.length) := by
  have hlen : (List.insertionSort
      (fun a b : ChatRec => b.createdAt ≤ a.createdAt) matching).length =
      matching.length :=
    (List.perm_insertionSort _ matching).length_eq
  have hfl : ((List.insertionSort
      (fun a b : ChatRec => b.createdAt ≤ a.createdAt) matching).take
        (limit + 1)).length = min (limit + 1) matching.length := by
    rw [List.length_take, hlen]
  simp only [chatsPageOf, hfl]
  by_cases hc : limit < matching.length
  · have hdec : decide (limit < min (limit + 1) matching.length) = true := by
      simp only [decide_eq_true_eq]
      omega
    rw [hdec, if_pos rfl]
    have hfl2 : (((List.insertionSort
        (fun a b : ChatRec => b.createdAt ≤ a.createdAt) matching).take
          (limit + 1)).take limit).length = limit := by
      rw [List.length_take, hfl]
      omega
    rw [hfl2]
    exact ⟨Nat.le_refl _, by simp [hc]⟩
  · have hdec : decide (limit < min (limit + 1) matching.length) = false := by
      simp only [decide_eq_false_iff_not]
      omega
    rw [hdec, if_neg (by simp)]
    rw [hfl]
    constructor
    · omega
    · constructor
      · intro habs
        exact absurd habs (by simp)
      · intro hlt
        omega

/-- Claim C3: whenever `getChatsByUserId` succeeds with the cursor resolving
to the matching chats, it returns at most `limit` chats, and `hasMore` is
true exactly when more matching chats exist (beyond the returned page, under
the cursor filter) than were returned. -/
theorem getChatsByUserId_pagination (db : DB) (u : String) (limit : Nat)
    (sa eb : Option String) (matching : List ChatRec) (page : ChatsPage)
    (hm : cursorFilter db (db.chats.filter (fun c => c.userId == u)) sa eb =
      .ok matching)
    (h : getChatsByUserId false db u limit sa eb = .ok page) :
    page.chats.length ≤ limit ∧
    (page.hasMore = true ↔ page.chats.length < matching.length) := by
  have hb : getChatsByUserIdBody db u limit sa eb =
      .ok (chatsPageOf matching limit) := by
    simp only [getChatsByUserIdBody, hm]
    rfl
  have hp : page = chatsPageOf matching limit := by
    simp only [getChatsByUserId, catchWrap, Bool.false_eq_true, if_false, hb,
      Except.ok.injEq] at h
    exact h.symm
  rw [hp]
  exact chatsPageOf_spec matching limit

/-- Witness for C3: requesting 2 of the 3 chats of user `u`. -/
theorem getChatsByUserId_pagination_witness :
    cursorFilter dbC3 (dbC3.chats.filter (fun c => c.userId == "u")) none none
      = .ok dbC3.chats ∧
    getChatsByUserId false dbC3 "u" 2 none none =
      .ok ⟨[⟨"o3", "c3", 3, "t3", "u", "private"⟩,
        ⟨"o2", "c2", 2, "t2", "u", "private"⟩], true⟩ ∧
    ((⟨[⟨"o3", "c3", 3, "t3", "u", "private"⟩,
        ⟨"o2", "c2", 2, "t2", "u", "private"⟩], true⟩ :
          ChatsPage).chats.length ≤ 2 ∧
      ((⟨[⟨"o3", "c3", 3, "t3", "u", "private"⟩,
        ⟨"o2", "c2", 2, "t2", "u", "private"⟩], true⟩ :
          ChatsPage).hasMore = true ↔
        (⟨[⟨"o3", "c3", 3, "t3", "u", "private"⟩,
          ⟨"o2", "c2", 2, "t2", "u", "private"⟩], true⟩ :
            ChatsPage).chats.length < dbC3.chats.length)) :=
  ⟨by rfl, by rfl,
    getChatsByUserId_pagination dbC3 "u" 2 none none dbC3.chats _
      (by rfl) (by rfl)⟩
